import Mathlib

/-!
Verification of the WSL remote-kernel session orchestrator
(crates/repl/src/kernels/wsl_kernel.rs) against its specification.

The Rust source is shallowly embedded: async tasks become pure functions over
explicit traces of the events they consume (queue receives, socket read/write
results, process-exit status), channels become lists, and the filesystem
becomes a map from paths to contents.
-/

namespace WslKernel

/-- The variants of `jupyter_protocol::JupyterMessageContent`.  The routing
code (`routing_task`, wsl_kernel.rs lines 246-262) matches only on the variant
and discards the payload, so payloads are not modelled. -/
inductive JupyterMessageContent where
  | ClearOutput
  | CommClose
  | CommInfoReply
  | CommInfoRequest
  | CommMsg
  | CommOpen
  | CompleteReply
  | CompleteRequest
  | DebugReply
  | DebugRequest
  | DisplayData
  | ErrorOutput
  | ExecuteInput
  | ExecuteReply
  | ExecuteRequest
  | HistoryReply
  | HistoryRequest
  | InputReply
  | InputRequest
  | InspectReply
  | InspectRequest
  | InterruptReply
  | InterruptRequest
  | IsCompleteReply
  | IsCompleteRequest
  | KernelInfoReply
  | KernelInfoRequest
  | ShutdownReply
  | ShutdownRequest
  | Status
  | StreamContent
  | UnknownMessage
  | UpdateDisplayData
deriving DecidableEq

/-- A protocol message: an identifier (standing for the header/payload that
make distinct messages distinct) together with its content variant. -/
structure JupyterMessage where
  id : Nat
  content : JupyterMessageContent
deriving DecidableEq

/-- The control-class contents, exactly the patterns of the first match arm of
`routing_task` (wsl_kernel.rs lines 250-252). -/
def control_class (c : JupyterMessageContent) : Bool :=
  match c with
  | .DebugRequest | .InterruptRequest | .ShutdownRequest => true
  | _ => false

/-- Embeds `routing_task` (wsl_kernel.rs lines 246-262): drain the outbound
request queue (`request_rx`) and forward each message, by a match on
`message.content`, either to `control_request_tx` (debug / interrupt /
shutdown requests) or to `shell_request_tx` (everything else).  The two
components of the result are the messages forwarded to the control and the
shell channel, in order. -/
def routing_task : List JupyterMessage → List JupyterMessage × List JupyterMessage
  | [] => ([], [])
  | message :: rest =>
    let r := routing_task rest
    match message.content with
    | .DebugRequest | .InterruptRequest | .ShutdownRequest => (message :: r.1, r.2)
    | _ => (r.1, message :: r.2)

theorem routing_task_cons (m : JupyterMessage) (q : List JupyterMessage) :
    routing_task (m :: q) =
      if control_class m.content then
        (m :: (routing_task q).1, (routing_task q).2)
      else
        ((routing_task q).1, m :: (routing_task q).2) := by
  obtain ⟨i, c⟩ := m
  cases c <;> simp [routing_task, control_class]

theorem routing_task_length (q : List JupyterMessage) :
    (routing_task q).1.length + (routing_task q).2.length = q.length := by
  induction q with
  | nil => simp [routing_task]
  | cons m rest ih =>
    rw [routing_task_cons]
    by_cases h : control_class m.content <;> simp [h] <;> omega

theorem routing_task_mem_control (q : List JupyterMessage) (m : JupyterMessage) :
    m ∈ (routing_task q).1 ↔ m ∈ q ∧ control_class m.content = true := by
  induction q with
  | nil => simp [routing_task]
  | cons m' rest ih =>
    rw [routing_task_cons]
    cases hcc : control_class m'.content
    · simp only [Bool.false_eq_true, if_false, List.mem_cons, ih]
      constructor
      · rintro ⟨hq, hc⟩
        exact ⟨Or.inr hq, hc⟩
      · rintro ⟨rfl | hq, hc⟩
        · rw [hcc] at hc
          exact absurd hc (by simp)
        · exact ⟨hq, hc⟩
    · simp only [if_true, List.mem_cons, ih]
      constructor
      · rintro (rfl | ⟨hq, hc⟩)
        · exact ⟨Or.inl rfl, hcc⟩
        · exact ⟨Or.inr hq, hc⟩
      · rintro ⟨rfl | hq, hc⟩
        · exact Or.inl rfl
        · exact Or.inr ⟨hq, hc⟩

theorem routing_task_mem_shell (q : List JupyterMessage) (m : JupyterMessage) :
    m ∈ (routing_task q).2 ↔ m ∈ q ∧ control_class m.content = false := by
  induction q with
  | nil => simp [routing_task]
  | cons m' rest ih =>
    rw [routing_task_cons]
    cases hcc : control_class m'.content
    · simp only [Bool.false_eq_true, if_false, List.mem_cons, ih]
      constructor
      · rintro (rfl | ⟨hq, hc⟩)
        · exact ⟨Or.inl rfl, hcc⟩
        · exact ⟨Or.inr hq, hc⟩
      · rintro ⟨rfl | hq, hc⟩
        · exact Or.inl rfl
        · exact Or.inr ⟨hq, hc⟩
    · simp only [if_true, List.mem_cons, ih]
      constructor
      · rintro ⟨hq, hc⟩
        exact ⟨Or.inr hq, hc⟩
      · rintro ⟨rfl | hq, hc⟩
        · rw [hcc] at hc
          exact absurd hc (by simp)
        · exact ⟨hq, hc⟩

/-- C1: For every message drained from the outbound request queue,
classification by `routing_task` is total and mutually exclusive: a message
whose content is a debug, interrupt, or shutdown request is forwarded to the
control channel, every other message is forwarded to the shell channel, and
no message is left unclassified or sent to both channels. -/
theorem C1_routing_total_exclusive
    (q : List JupyterMessage) (m : JupyterMessage) (c : JupyterMessageContent) :
    (control_class c = true ↔
      c = .DebugRequest ∨ c = .InterruptRequest ∨ c = .ShutdownRequest)
    ∧ (routing_task q).1.length + (routing_task q).2.length = q.length
    ∧ (m ∈ (routing_task q).1 ↔ m ∈ q ∧ control_class m.content = true)
    ∧ (m ∈ (routing_task q).2 ↔ m ∈ q ∧ control_class m.content = false)
    ∧ ¬(m ∈ (routing_task q).1 ∧ m ∈ (routing_task q).2) := by
  refine ⟨?_, routing_task_length q, routing_task_mem_control q m,
    routing_task_mem_shell q m, ?_⟩
  · cases c <;> simp [control_class]
  · rintro ⟨h1, h2⟩
    have hc1 := (routing_task_mem_control q m).mp h1
    have hc2 := (routing_task_mem_shell q m).mp h2
    rw [hc1.2] at hc2
    exact absurd hc2.2 (by simp)

/-! ### Channel request/reply tasks and the supervising task (C2) -/

/-- One iteration of `shell_task` / `control_task` (wsl_kernel.rs lines
264-284): the request received from the per-channel queue, the result of the
socket write — which the source discards with `.ok()` — and the result of the
blocking socket read for the reply. -/
structure ChannelStep where
  request : JupyterMessage
  write_result : Except String Unit
  read_result : Except String JupyterMessage

/-- Whether a socket read result is a success. -/
def read_ok : Except String JupyterMessage → Bool
  | .ok _ => true
  | .error _ => false

/-- Embeds the loop body of `shell_task` / `control_task`: for each received
request, `socket.send(message).await.ok()` discards the write result, then
`socket.read().await?` propagates a read failure, and the reply is forwarded
into the channel's reply queue.  Returns the forwarded replies, or the first
read error, which terminates the task. -/
def channel_task : List ChannelStep → Except String (List JupyterMessage)
  | [] => .ok []
  | step :: rest =>
    match step.read_result with
    | .error e => .error e
    | .ok reply => (channel_task rest).map (fun replies => reply :: replies)

/-- The `anyhow::Result<()>` with which the task completes. -/
def channel_task_status (steps : List ChannelStep) : Except String Unit :=
  (channel_task steps).map (fun _ => ())

/-- Embeds the supervising task (wsl_kernel.rs lines 314-345): it drains the
`FuturesUnordered` of named task results and, for each task that completed
with an error, calls `session.kernel_errored` with the message
`handling failed for <name>: <err>`.  The result is the list of session-level
error reports made, in order. -/
def supervisor_reports (results : List (String × Except String Unit)) : List String :=
  results.filterMap (fun nr =>
    match nr.2 with
    | .error err => some ("handling failed for " ++ nr.1 ++ ": " ++ err)
    | .ok _ => none)

/-- C2 counterexample: the claim says a socket *write* failure terminates the
channel task with an error, but the source discards the write result with
`.ok()`.  A trace whose only step has a failing write and a successful read
completes with `Ok` and the supervisor reports nothing. -/
theorem C2_counterexample :
    channel_task_status
        [⟨⟨0, .ExecuteRequest⟩, .error "broken pipe", .ok ⟨1, .ExecuteReply⟩⟩]
      = .ok ()
    ∧ supervisor_reports
        [("shell task",
          channel_task_status
            [⟨⟨0, .ExecuteRequest⟩, .error "broken pipe", .ok ⟨1, .ExecuteReply⟩⟩])]
      = [] := by
  constructor <;> rfl

/-- C2 (amended): if the socket *read* fails at some iteration (all earlier
reads having succeeded), the channel task terminates with that error and the
supervising task reports it to the session consumer as a session-level error;
socket write failures, by contrast, are discarded and never terminate the
task by themselves. -/
theorem C2_read_failure_reported
    (pre : List ChannelStep) (s : ChannelStep) (rest steps2 : List ChannelStep)
    (name e : String)
    (hpre : ∀ p ∈ pre, read_ok p.read_result = true)
    (he : s.read_result = .error e)
    (h2 : ∀ p ∈ steps2, read_ok p.read_result = true) :
    channel_task_status (pre ++ s :: rest) = .error e
    ∧ supervisor_reports [(name, channel_task_status (pre ++ s :: rest))]
        = ["handling failed for " ++ name ++ ": " ++ e]
    ∧ (channel_task_status steps2).isOk = true := by
  have herr : channel_task_status (pre ++ s :: rest) = .error e := by
    induction pre with
    | nil => simp [channel_task_status, channel_task, he, Except.map]
    | cons p ps ih =>
      have hp : read_ok p.read_result = true := hpre p (List.mem_cons_self p ps)
      have hrest : ∀ q ∈ ps, read_ok q.read_result = true := fun q hq =>
        hpre q (List.mem_cons_of_mem p hq)
      cases hr : p.read_result with
      | error e' => rw [hr] at hp; simp [read_ok] at hp
      | ok reply =>
        have := ih hrest
        simp only [channel_task_status, List.cons_append, channel_task, hr] at this ⊢
        cases hct : channel_task (ps ++ s :: rest) with
        | error e'' =>
          rw [hct] at this
          simp [Except.map] at this ⊢
          exact this
        | ok l =>
          rw [hct] at this
          simp [Except.map] at this
  have hok : (channel_task_status steps2).isOk = true := by
    induction steps2 with
    | nil => simp [channel_task_status, channel_task, Except.isOk, Except.toBool, Except.map]
    | cons p ps ih =>
      have hp : read_ok p.read_result = true := h2 p (List.mem_cons_self p ps)
      have hrest : ∀ q ∈ ps, read_ok q.read_result = true := fun q hq =>
        h2 q (List.mem_cons_of_mem p hq)
      cases hr : p.read_result with
      | error e' => rw [hr] at hp; simp [read_ok] at hp
      | ok reply =>
        have := ih hrest
        simp only [channel_task_status, channel_task, hr] at this ⊢
        cases hct : channel_task ps with
        | error e'' =>
          rw [hct] at this
          simp [Except.map, Except.isOk, Except.toBool] at this
        | ok l =>
          simp [Except.map, Except.isOk, Except.toBool]
  refine ⟨herr, ?_, hok⟩
  simp [supervisor_reports, herr]

/-- A closed instance of `C2_read_failure_reported`. -/
theorem C2_read_failure_reported_witness :
    channel_task_status
        [⟨⟨0, .ExecuteRequest⟩, .ok (), .ok ⟨1, .ExecuteReply⟩⟩,
         ⟨⟨2, .KernelInfoRequest⟩, .ok (), .error "connection reset"⟩]
      = .error "connection reset"
    ∧ supervisor_reports
        [("control task",
          channel_task_status
            [⟨⟨0, .ExecuteRequest⟩, .ok (), .ok ⟨1, .ExecuteReply⟩⟩,
             ⟨⟨2, .KernelInfoRequest⟩, .ok (), .error "connection reset"⟩])]
      = ["handling failed for " ++ "control task" ++ ": " ++ "connection reset"]
    ∧ (channel_task_status
        [⟨⟨3, .ShutdownRequest⟩, .error "broken pipe", .ok ⟨4, .ShutdownReply⟩⟩]).isOk = true :=
  C2_read_failure_reported
    [⟨⟨0, .ExecuteRequest⟩, .ok (), .ok ⟨1, .ExecuteReply⟩⟩]
    ⟨⟨2, .KernelInfoRequest⟩, .ok (), .error "connection reset"⟩
    []
    [⟨⟨3, .ShutdownRequest⟩, .error "broken pipe", .ok ⟨4, .ShutdownReply⟩⟩]
    "control task" "connection reset"
    (by decide) rfl (by decide)

/-! ### Inbound message delivery wiring (C3) -/

/-- Origin channel of an inbound message. -/
inductive InboundSource where
  | control
  | shell
  | iopub
deriving DecidableEq

/-- The sources pushed into the `SelectAll` fan-in collector `messages_rx`
(wsl_kernel.rs lines 207-209): `control_reply_rx` then `shell_reply_rx`, and
nothing else. -/
def messages_rx_sources : List InboundSource := [.control, .shell]

/-- How a message from each origin channel reaches `session.route`. -/
inductive DeliveryPath where
  | merged_stream
  | direct_route
deriving DecidableEq

/-- Embeds the delivery wiring: control and shell replies are sent into the
merged `SelectAll` stream, whose consumer task (lines 211-224) calls
`session.route`; the iopub task (lines 227-240) calls `session.route` on each
message it reads directly, without going through the merged stream. -/
def delivery_path : InboundSource → DeliveryPath
  | .control => .merged_stream
  | .shell => .merged_stream
  | .iopub => .direct_route

/-- Embeds `iopub_task` (wsl_kernel.rs lines 226-240): a loop that reads from
the iopub socket — `iopub_socket.read().await?` terminates the task at the
first read error — and hands each message to `session.route`.  Returns the
messages delivered to the session and the terminating error, if the trace
contains one. -/
def iopub_task : List (Except String JupyterMessage) →
    List JupyterMessage × Option String
  | [] => ([], none)
  | .error e :: _ => ([], some e)
  | .ok message :: rest =>
    let r := iopub_task rest
    (message :: r.1, r.2)

/-- C3 counterexample: the claim says every iopub message is forwarded into
the same shared inbound stream (the `SelectAll` fan-in) that carries control
and shell replies; in the source, the fan-in merges only `control_reply_rx`
and `shell_reply_rx`, and the iopub task delivers directly to
`session.route`, bypassing the merged stream. -/
theorem C3_counterexample :
    InboundSource.iopub ∉ messages_rx_sources
    ∧ delivery_path .iopub = .direct_route
    ∧ delivery_path .iopub ≠ .merged_stream := by
  refine ⟨by decide, rfl, by decide⟩

/-- C3 (amended): every message successfully read from the iopub socket is
handed to the session's routing entry point (`session.route`) — the same
entry point that receives control and shell replies — but by the dedicated
iopub task directly, not through the merged `SelectAll` stream, which carries
only control and shell replies. -/
theorem C3_iopub_delivery
    (reads : List (Except String JupyterMessage)) (m : JupyterMessage)
    (hok : ∀ r ∈ reads, read_ok r = true) :
    messages_rx_sources = [.control, .shell]
    ∧ delivery_path .control = .merged_stream
    ∧ delivery_path .shell = .merged_stream
    ∧ delivery_path .iopub = .direct_route
    ∧ (iopub_task reads).1 =
        reads.filterMap (fun r =>
          match r with
          | .ok msg => some msg
          | .error _ => none)
    ∧ (iopub_task reads).2 = none
    ∧ (.ok m ∈ reads → m ∈ (iopub_task reads).1) := by
  refine ⟨rfl, rfl, rfl, rfl, ?_, ?_, ?_⟩
  · induction reads with
    | nil => simp [iopub_task]
    | cons r rest ih =>
      have hr : read_ok r = true := hok r (List.mem_cons_self r rest)
      have hrest : ∀ q ∈ rest, read_ok q = true := fun q hq =>
        hok q (List.mem_cons_of_mem r hq)
      cases r with
      | error e => simp [read_ok] at hr
      | ok msg => simp [iopub_task, ih hrest]
  · induction reads with
    | nil => simp [iopub_task]
    | cons r rest ih =>
      have hr : read_ok r = true := hok r (List.mem_cons_self r rest)
      have hrest : ∀ q ∈ rest, read_ok q = true := fun q hq =>
        hok q (List.mem_cons_of_mem r hq)
      cases r with
      | error e => simp [read_ok] at hr
      | ok msg => simp [iopub_task, ih hrest]
  · intro hm
    induction reads with
    | nil => simp at hm
    | cons r rest ih =>
      have hrest : ∀ q ∈ rest, read_ok q = true := fun q hq =>
        hok q (List.mem_cons_of_mem r hq)
      rcases List.mem_cons.mp hm with rfl | hm'
      · simp [iopub_task]
      · have hr : read_ok r = true := hok r (List.mem_cons_self r rest)
        cases r with
        | error e => simp [read_ok] at hr
        | ok msg =>
          simp only [iopub_task, List.mem_cons]
          exact Or.inr (ih hrest hm')

/-- A closed instance of `C3_iopub_delivery`. -/
theorem C3_iopub_delivery_witness :
    messages_rx_sources = [.control, .shell]
    ∧ delivery_path .control = .merged_stream
    ∧ delivery_path .shell = .merged_stream
    ∧ delivery_path .iopub = .direct_route
    ∧ (iopub_task [.ok ⟨7, .Status⟩, .ok ⟨8, .StreamContent⟩]).1 =
        ([.ok ⟨7, .Status⟩, .ok ⟨8, .StreamContent⟩] :
            List (Except String JupyterMessage)).filterMap (fun r =>
          match r with
          | .ok msg => some msg
          | .error _ => none)
    ∧ (iopub_task [.ok ⟨7, .Status⟩, .ok ⟨8, .StreamContent⟩]).2 = none
    ∧ (Except.ok ⟨7, .Status⟩ ∈
          ([.ok ⟨7, .Status⟩, .ok ⟨8, .StreamContent⟩] :
            List (Except String JupyterMessage)) →
        (⟨7, .Status⟩ : JupyterMessage) ∈
          (iopub_task [.ok ⟨7, .Status⟩, .ok ⟨8, .StreamContent⟩]).1) :=
  C3_iopub_delivery [.ok ⟨7, .Status⟩, .ok ⟨8, .StreamContent⟩] ⟨7, .Status⟩
    (by decide)

/-! ### Port allocation (C4) -/

/-- Embeds `peek_ports` (wsl_kernel.rs lines 28-38).  The for loop binds a
transient `TcpListener` to port 0, reads back the OS-assigned port, and the
listener goes out of scope — is closed — at the end of each loop iteration,
before the next bind.  The OS is modelled by an oracle `os i bound`, the port
it assigns at iteration `i` when `bound` is the set of ports currently bound;
a well-behaved OS never assigns a port in `bound` (hypothesis of the
theorems).  Because each listener is dropped before the next bind, every
iteration sees only the ambient bound set `env`. -/
def peek_ports (env : List Nat) (os : Nat → List Nat → Nat) : List Nat :=
  (List.range 5).foldl
    (fun ports i =>
      let bound := env
      let port := os i bound
      ports ++ [port])
    []

/-- C4 counterexample: a well-behaved OS oracle (it never returns a port that
is currently bound; here nothing is bound) may assign the same port at every
iteration, because each transient listener is closed before the next bind.
The resulting five ports are not pairwise distinct. -/
theorem C4_counterexample :
    (5000 : Nat) ∉ ([] : List Nat)
    ∧ peek_ports [] (fun _ _ => 5000) = [5000, 5000, 5000, 5000, 5000]
    ∧ ¬ (peek_ports [] (fun _ _ => 5000)).Pairwise (fun a b => a ≠ b) := by
  refine ⟨by decide, by decide, by decide⟩

/-- C4 (amended): `peek_ports` returns five ports, each of which was free —
outside the bound set — at the moment it was allocated; pairwise distinctness
is not guaranteed, because each transient listener is released before the
next bind, so the OS may assign the same port more than once. -/
theorem C4_ports_free (env : List Nat) (os : Nat → List Nat → Nat)
    (hos : ∀ i, i < 5 → os i env ∉ env) :
    (peek_ports env os).length = 5
    ∧ ∀ p ∈ peek_ports env os, p ∉ env := by
  have hlist : peek_ports env os =
      [os 0 env, os 1 env, os 2 env, os 3 env, os 4 env] := by
    simp [peek_ports, List.range_succ]
  constructor
  · rw [hlist]
    rfl
  · intro p hp
    rw [hlist] at hp
    simp only [List.mem_cons, List.not_mem_nil, or_false] at hp
    rcases hp with rfl | rfl | rfl | rfl | rfl <;> exact hos _ (by norm_num)

/-- A closed instance of `C4_ports_free`. -/
theorem C4_ports_free_witness :
    (peek_ports [9000] (fun i _ => 6000 + i)).length = 5
    ∧ ∀ p ∈ peek_ports [9000] (fun i _ => 6000 + i), p ∉ [9000] :=
  C4_ports_free [9000] (fun i _ => 6000 + i) (by decide)

/-! ### Shutdown and process-exit reporting (C5, C6) -/

/-- Whether the child process is still running. -/
inductive ProcessState where
  | running
  | exited
deriving DecidableEq

/-- The mutable state of a `WslRunningKernel` relevant to shutdown:
`_process_status_task` is the handle of the process-exit monitoring task
(dropping it cancels the task), `request_tx_closed` records whether
`close_channel` has been called on the outbound queue, and `process` is the
child process. -/
structure KernelState where
  process_status_task : Option Unit
  request_tx_closed : Bool
  process : ProcessState
deriving DecidableEq

/-- Models `smol::process::Child::kill`: succeeds on a running process; returns an
error — with the context string the source attaches — when the process has
already exited.  It never panics. -/
def kill : ProcessState → ProcessState × Except String Unit
  | .running => (.exited, .ok ())
  | .exited => (.exited, .error "killing the kernel process")

/-- Embeds `WslRunningKernel::force_shutdown` (wsl_kernel.rs lines 411-415):
`self._process_status_task.take()` drops — and thereby cancels — the
monitoring task, `self.request_tx.close_channel()` closes the outbound
queue, and the returned task is ready with the result of
`self.process.kill()`. -/
def force_shutdown (st : KernelState) : KernelState × Except String Unit :=
  let st1 : KernelState := { st with process_status_task := none }
  let st2 : KernelState := { st1 with request_tx_closed := true }
  let kr := kill st2.process
  ({ st2 with process := kr.1 }, kr.2)

/-- The exit status of the child process: whether it was a success, together
with its debug rendering (the `{:?}` text interpolated into the error
message). -/
structure ExitStatus where
  success : Bool
  rendered : String
deriving DecidableEq

/-- The error message computed by the body of the process-status task
(wsl_kernel.rs lines 349-362): a successful exit produces no message, a
failing exit produces a message embedding the status, and a status-wait
error produces a message embedding the error. -/
def status_error_message : Except String ExitStatus → Option String
  | .ok status =>
    if status.success then none
    else some ("kernel process exited with status: " ++ status.rendered)
  | .error err => some ("kernel process exited with error: " ++ err)

/-- The session-level report made for a process exit: the process-status task
runs only while its handle is held in `_process_status_task` (dropping a gpui
`Task` cancels it, and `force_shutdown` takes the handle), so a report is made
only when the handle is still present, and then it is
`status_error_message`'s result, passed to `session.kernel_errored`. -/
def process_exit_report (st : KernelState) (exit : Except String ExitStatus) :
    Option String :=
  match st.process_status_task with
  | none => none
  | some _ => status_error_message exit

/-- C5: `force_shutdown` (a) stops the supervisor from reporting the
process's exit as an error, (b) closes the outbound queue, (c) kills the
child process, and (d) returns a result reflecting whether termination
succeeded; a second call reports no error either, leaves the state unchanged,
and — being a total function — does not panic. -/
theorem C5_force_shutdown (st : KernelState) (exit : Except String ExitStatus) :
    process_exit_report (force_shutdown st).1 exit = none
    ∧ (force_shutdown st).1.request_tx_closed = true
    ∧ (force_shutdown st).1.process = .exited
    ∧ ((force_shutdown st).2 = .ok () ↔ st.process = .running)
    ∧ process_exit_report (force_shutdown (force_shutdown st).1).1 exit = none
    ∧ (force_shutdown (force_shutdown st).1).1 = (force_shutdown st).1
    ∧ (force_shutdown (force_shutdown st).1).2
        = .error "killing the kernel process" := by
  obtain ⟨task, closed, proc⟩ := st
  cases proc <;>
    simp [force_shutdown, kill, process_exit_report]

/-- C6: if the child process exits with a failure status and no shutdown was
requested beforehand, the session is put into an errored state by a message
containing the exit status; if the child process exits successfully after a
`force_shutdown` call, no error is reported to the session. -/
theorem C6_exit_reporting (st st' : KernelState) (status status' : ExitStatus)
    (hmon : st.process_status_task = some ())
    (hfail : status.success = false)
    (_hsucc : status'.success = true) :
    process_exit_report st (.ok status)
      = some ("kernel process exited with status: " ++ status.rendered)
    ∧ (∃ pre post, process_exit_report st (.ok status)
        = some (pre ++ status.rendered ++ post))
    ∧ process_exit_report (force_shutdown st').1 (.ok status') = none := by
  refine ⟨?_, ?_, ?_⟩
  · simp [process_exit_report, hmon, status_error_message, hfail]
  · exact ⟨"kernel process exited with status: ", "", by
      simp [process_exit_report, hmon, status_error_message, hfail]⟩
  · simp [force_shutdown, process_exit_report]

/-- A closed instance of `C6_exit_reporting`. -/
theorem C6_exit_reporting_witness :
    process_exit_report ⟨some (), false, .running⟩ (.ok ⟨false, "ExitStatus(1)"⟩)
      = some ("kernel process exited with status: " ++ "ExitStatus(1)")
    ∧ (∃ pre post,
        process_exit_report ⟨some (), false, .running⟩ (.ok ⟨false, "ExitStatus(1)"⟩)
          = some (pre ++ "ExitStatus(1)" ++ post))
    ∧ process_exit_report
        (force_shutdown ⟨some (), false, .running⟩).1 (.ok ⟨true, "ExitStatus(0)"⟩)
      = none :=
  C6_exit_reporting ⟨some (), false, .running⟩ ⟨some (), false, .running⟩
    ⟨false, "ExitStatus(1)"⟩ ⟨true, "ExitStatus(0)"⟩ rfl rfl rfl

/-! ### Launch: connection file, command construction, teardown (C7, C8, C9) -/

/-- The filesystem, as a map from path to file contents. -/
def FileSystem : Type := String → Option String

/-- Models `fs.atomic_write(path, content)`: after it returns, `path` holds exactly
`content` (the write is atomic, so no partial contents are ever observable). -/
def atomic_write (path content : String) (fs : FileSystem) : FileSystem :=
  fun q => if q = path then some content else fs q

/-- Models `std::fs::remove_file(path)`: the path no longer exists afterwards. -/
def remove_file (path : String) (fs : FileSystem) : FileSystem :=
  fun q => if q = path then none else fs q

/-- The output of an external command: its exit success flag and its captured
standard output, already decoded to text. -/
structure CmdOutput where
  success : Bool
  stdout : String
deriving DecidableEq

/-- The kernelspec carried by a `WslKernelSpecification`: the declared
argument vector and the optional environment-variable mapping. -/
structure Kernelspec where
  argv : List String
  env : Option (List (String × String))
deriving DecidableEq

/-- Models `WslKernelSpecification`: kernel display name, WSL distro, kernelspec. -/
structure WslKernelSpecification where
  name : String
  distro : String
  kernelspec : Kernelspec
deriving DecidableEq

/-- The outcomes of the fallible external steps of `WslRunningKernel::new`, in
source order: creating the runtime dir, atomically writing the connection
file, running `wslpath` on the connection path, running `wslpath` on the
working directory, spawning the process, and opening the iopub, shell and
control connections. -/
structure LaunchEnv where
  create_dir : Except String Unit
  write_file : Except String Unit
  wslpath_connection : Except String CmdOutput
  wslpath_wd : Except String CmdOutput
  spawn : Except String Unit
  connect_iopub : Except String Unit
  connect_shell : Except String Unit
  connect_control : Except String Unit

/-- Embeds the command construction of `WslRunningKernel::new` (wsl_kernel.rs
lines 153-175): the argument list of the spawned `wsl` command.  `--cd <wd>`
is added only when the working-directory translation produced a value; after
`--exec`, the kernelspec's environment mapping (if any) is prefixed as
`env K=V ...`; and each kernelspec argv entry equal to the placeholder
`{connection_file}` is replaced by the translated connection path. -/
def build_command (distro : String) (wsl_working_directory : Option String)
    (env : Option (List (String × String))) (argv : List String)
    (wsl_connection_path : String) : List String :=
  ["-d", distro]
    ++ (match wsl_working_directory with
        | some wd => ["--cd", wd]
        | none => [])
    ++ ["--exec"]
    ++ (match env with
        | some kvs => "env" :: kvs.map (fun kv => kv.1 ++ "=" ++ kv.2)
        | none => [])
    ++ argv.map (fun arg =>
        if arg = "{connection_file}" then wsl_connection_path else arg)

/-- What a successful `WslRunningKernel::new` produces, in the model: the
filesystem after the connection file was written, the argument list of the
spawned command, and the initial kernel state (monitoring task installed,
outbound queue open, process running). -/
structure LaunchResult where
  fs : FileSystem
  command_args : List String
  kernel : KernelState

/-- Embeds `WslRunningKernel::new` (wsl_kernel.rs lines 59-383), with the
port allocation modelled separately by `peek_ports` and each external effect
drawn from `env`.  Steps in source order: create the runtime dir (`?`),
atomically write the connection file (`?`), translate the connection path
with `wslpath` (a command failure or unsuccessful exit is fatal), reject an
empty kernelspec argv, translate the working directory with `wslpath` (any
failure degrades to `none`), build the command, spawn the process, and open
the iopub, shell and control connections (each fatal on failure). -/
def wsl_running_kernel_new (spec : WslKernelSpecification)
    (connection_path connection_content : String) (fs0 : FileSystem)
    (env : LaunchEnv) : Except String LaunchResult :=
  match env.create_dir with
  | .error e => .error e
  | .ok _ =>
    match env.write_file with
    | .error e => .error e
    | .ok _ =>
      let fs1 := atomic_write connection_path connection_content fs0
      match env.wslpath_connection with
      | .error e => .error e
      | .ok out =>
        if out.success = false then
          .error "Failed to convert path to WSL path"
        else
          let wsl_connection_path := out.stdout.trim
          if spec.kernelspec.argv = [] then
            .error ("Empty argv in kernelspec " ++ spec.name)
          else
            let wsl_working_directory :=
              match env.wslpath_wd with
              | .ok o => if o.success then some o.stdout.trim else none
              | .error _ => none
            let args := build_command spec.distro wsl_working_directory
              spec.kernelspec.env spec.kernelspec.argv wsl_connection_path
            match env.spawn with
            | .error _ => .error "failed to start the kernel process"
            | .ok _ =>
              match env.connect_iopub with
              | .error e => .error e
              | .ok _ =>
                match env.connect_shell with
                | .error e => .error e
                | .ok _ =>
                  match env.connect_control with
                  | .error e => .error e
                  | .ok _ =>
                    .ok ⟨fs1, args, ⟨some (), false, .running⟩⟩

/-- Embeds `Drop for WslRunningKernel` (wsl_kernel.rs lines 418-424): remove
the connection file (result discarded), close the outbound queue, kill the
process (result discarded). -/
def wsl_running_kernel_drop (st : KernelState) (connection_path : String)
    (fs : FileSystem) : FileSystem × KernelState :=
  let fs1 := remove_file connection_path fs
  let st1 : KernelState := { st with request_tx_closed := true }
  let kr := kill st1.process
  (fs1, { st1 with process := kr.1 })

/-- C7: the connection descriptor file is written during launch and holds the
serialized descriptor immediately after a successful launch, and the teardown
(`Drop for WslRunningKernel`) removes it, so it is absent afterwards. -/
theorem C7_connection_file (spec : WslKernelSpecification)
    (connection_path connection_content : String) (fs0 : FileSystem)
    (env : LaunchEnv) (res : LaunchResult) (st : KernelState)
    (h : wsl_running_kernel_new spec connection_path connection_content fs0 env
          = .ok res) :
    res.fs connection_path = some connection_content
    ∧ (wsl_running_kernel_drop st connection_path res.fs).1 connection_path
        = none := by
  have hfs : res.fs = atomic_write connection_path connection_content fs0 := by
    unfold wsl_running_kernel_new at h
    cases h1 : env.create_dir with
    | error e => rw [h1] at h; simp at h
    | ok u1 =>
    rw [h1] at h
    cases h2 : env.write_file with
    | error e => rw [h2] at h; simp at h
    | ok u2 =>
    rw [h2] at h
    cases h3 : env.wslpath_connection with
    | error e => rw [h3] at h; simp at h
    | ok out =>
    rw [h3] at h
    simp only at h
    by_cases hs : out.success = false
    · rw [if_pos hs] at h
      simp at h
    · rw [if_neg hs] at h
      by_cases ha : spec.kernelspec.argv = []
      · rw [if_pos ha] at h
        simp at h
      · rw [if_neg ha] at h
        cases h4 : env.spawn with
        | error e => rw [h4] at h; simp at h
        | ok u3 =>
        rw [h4] at h
        cases h5 : env.connect_iopub with
        | error e => rw [h5] at h; simp at h
        | ok u4 =>
        rw [h5] at h
        cases h6 : env.connect_shell with
        | error e => rw [h6] at h; simp at h
        | ok u5 =>
        rw [h6] at h
        cases h7 : env.connect_control with
        | error e => rw [h7] at h; simp at h
        | ok u6 =>
        rw [h7] at h
        simp only [Except.ok.injEq] at h
        rw [← h]
  constructor
  · rw [hfs]
    simp [atomic_write]
  · simp [wsl_running_kernel_drop, remove_file]

/-- A closed instance of `C7_connection_file`. -/
theorem C7_connection_file_witness :
    (LaunchResult.mk
        (atomic_write "C:/rt/kernel-zed-wsl-1.json" "descriptor-json"
          (fun _ => none))
        (build_command "Ubuntu" (some (String.trim "/mnt/c/proj")) none
          ["python", "-m", "ipykernel", "-f", "{connection_file}"]
          (String.trim "/mnt/c/rt/kernel-zed-wsl-1.json"))
        ⟨some (), false, .running⟩).fs "C:/rt/kernel-zed-wsl-1.json"
      = some "descriptor-json"
    ∧ (wsl_running_kernel_drop ⟨some (), false, .running⟩
        "C:/rt/kernel-zed-wsl-1.json"
        (LaunchResult.mk
          (atomic_write "C:/rt/kernel-zed-wsl-1.json" "descriptor-json"
            (fun _ => none))
          (build_command "Ubuntu" (some (String.trim "/mnt/c/proj")) none
            ["python", "-m", "ipykernel", "-f", "{connection_file}"]
            (String.trim "/mnt/c/rt/kernel-zed-wsl-1.json"))
          ⟨some (), false, .running⟩).fs).1 "C:/rt/kernel-zed-wsl-1.json"
      = none :=
  C7_connection_file
    ⟨"python3", "Ubuntu",
      ⟨["python", "-m", "ipykernel", "-f", "{connection_file}"], none⟩⟩
    "C:/rt/kernel-zed-wsl-1.json" "descriptor-json" (fun _ => none)
    ⟨.ok (), .ok (), .ok ⟨true, "/mnt/c/rt/kernel-zed-wsl-1.json"⟩,
     .ok ⟨true, "/mnt/c/proj"⟩, .ok (), .ok (), .ok (), .ok ()⟩
    (LaunchResult.mk
      (atomic_write "C:/rt/kernel-zed-wsl-1.json" "descriptor-json"
        (fun _ => none))
      (build_command "Ubuntu" (some (String.trim "/mnt/c/proj")) none
        ["python", "-m", "ipykernel", "-f", "{connection_file}"]
        (String.trim "/mnt/c/rt/kernel-zed-wsl-1.json"))
      ⟨some (), false, .running⟩)
    ⟨some (), false, .running⟩ rfl

/-- No `K=V` environment argument can equal the placeholder: the placeholder
contains no equals sign. -/
theorem env_arg_ne_placeholder (k v : String) :
    k ++ "=" ++ v ≠ "{connection_file}" := by
  intro h
  have hmem : '=' ∈ (k ++ "=" ++ v).data := by
    simp only [String.data_append, List.mem_append]
    left
    right
    decide
  rw [h] at hmem
  revert hmem
  decide

/-- C8: in the spawned command's argument list, every kernelspec argv entry
equal to `{connection_file}` is replaced by the translated connection path,
and no literal `{connection_file}` remains anywhere among the arguments
(given that the translated path, the distro name, and the translated working
directory are not themselves that literal). -/
theorem C8_placeholder_substitution (distro : String) (wd : Option String)
    (env : Option (List (String × String))) (argv : List String) (path : String)
    (hpath : path ≠ "{connection_file}")
    (hdistro : distro ≠ "{connection_file}")
    (hwd : ∀ w, wd = some w → w ≠ "{connection_file}") :
    (argv.map (fun arg =>
        if arg = "{connection_file}" then path else arg)
      <:+ build_command distro wd env argv path)
    ∧ (∀ arg ∈ argv, arg = "{connection_file}" →
        path ∈ build_command distro wd env argv path)
    ∧ "{connection_file}" ∉ build_command distro wd env argv path := by
  refine ⟨?_, ?_, ?_⟩
  · simp only [build_command]
    exact List.suffix_append _ _
  · intro arg harg he
    simp only [build_command, List.mem_append, List.mem_map]
    exact Or.inr ⟨arg, harg, by simp [he]⟩
  · intro hmem
    simp only [build_command, List.mem_append] at hmem
    rcases hmem with ((((h1 | h2) | h3) | h4) | h5)
    · simp only [List.mem_cons, List.not_mem_nil, or_false] at h1
      rcases h1 with h1 | h1
      · exact absurd h1.symm (by decide)
      · exact hdistro h1.symm
    · cases hw : wd with
      | none => rw [hw] at h2; simp at h2
      | some w =>
        rw [hw] at h2
        simp only [List.mem_cons, List.not_mem_nil, or_false] at h2
        rcases h2 with h2 | h2
        · exact absurd h2.symm (by decide)
        · exact hwd w hw h2.symm
    · simp only [List.mem_singleton] at h3
      exact absurd h3.symm (by decide)
    · cases henv : env with
      | none => rw [henv] at h4; simp at h4
      | some kvs =>
        rw [henv] at h4
        simp only [List.mem_cons, List.mem_map] at h4
        rcases h4 with h4 | ⟨kv, _, h4⟩
        · exact absurd h4.symm (by decide)
        · exact env_arg_ne_placeholder kv.1 kv.2 h4
    · simp only [List.mem_map] at h5
      obtain ⟨arg, _, h5⟩ := h5
      by_cases ha : arg = "{connection_file}"
      · rw [if_pos ha] at h5
        exact hpath h5
      · rw [if_neg ha] at h5
        exact ha h5

/-- A closed instance of `C8_placeholder_substitution`. -/
theorem C8_placeholder_substitution_witness :
    ((["kernel", "-f", "{connection_file}"] : List String).map (fun arg =>
        if arg = "{connection_file}" then "/mnt/c/conn.json" else arg)
      <:+ build_command "Ubuntu" none none ["kernel", "-f", "{connection_file}"]
            "/mnt/c/conn.json")
    ∧ (∀ arg ∈ (["kernel", "-f", "{connection_file}"] : List String),
        arg = "{connection_file}" →
        "/mnt/c/conn.json" ∈ build_command "Ubuntu" none none
          ["kernel", "-f", "{connection_file}"] "/mnt/c/conn.json")
    ∧ "{connection_file}" ∉ build_command "Ubuntu" none none
        ["kernel", "-f", "{connection_file}"] "/mnt/c/conn.json" :=
  C8_placeholder_substitution "Ubuntu" none none
    ["kernel", "-f", "{connection_file}"] "/mnt/c/conn.json"
    (by decide) (by decide) (by intro w hw; cases hw)

/-- C9: when the working-directory translation fails (the `wslpath` command
errors or exits unsuccessfully) while every other launch step succeeds, the
launch still succeeds, and the spawned command is built with no working
directory (`--cd` is never added). -/
theorem C9_wd_translation_failure (spec : WslKernelSpecification)
    (connection_path connection_content : String) (fs0 : FileSystem)
    (env : LaunchEnv) (out : CmdOutput)
    (hcd : env.create_dir = .ok ())
    (hwf : env.write_file = .ok ())
    (hconn : env.wslpath_connection = .ok out)
    (hout : out.success = true)
    (hargv : spec.kernelspec.argv ≠ [])
    (hwd : match env.wslpath_wd with
           | .ok o => o.success = false
           | .error _ => True)
    (hspawn : env.spawn = .ok ())
    (hiopub : env.connect_iopub = .ok ())
    (hshell : env.connect_shell = .ok ())
    (hcontrol : env.connect_control = .ok ()) :
    wsl_running_kernel_new spec connection_path connection_content fs0 env =
      .ok ⟨atomic_write connection_path connection_content fs0,
           build_command spec.distro none spec.kernelspec.env
             spec.kernelspec.argv out.stdout.trim,
           ⟨some (), false, .running⟩⟩
    ∧ (wsl_running_kernel_new spec connection_path connection_content fs0
        env).isOk = true := by
  have hnone :
      (match env.wslpath_wd with
       | .ok o => if o.success then some o.stdout.trim else none
       | .error _ => none) = (none : Option String) := by
    cases hw : env.wslpath_wd with
    | error e => rfl
    | ok o =>
      rw [hw] at hwd
      simp [hwd]
  have heq : wsl_running_kernel_new spec connection_path connection_content fs0
      env =
      .ok ⟨atomic_write connection_path connection_content fs0,
           build_command spec.distro none spec.kernelspec.env
             spec.kernelspec.argv out.stdout.trim,
           ⟨some (), false, .running⟩⟩ := by
    unfold wsl_running_kernel_new
    rw [hcd, hwf, hconn, hspawn, hiopub, hshell, hcontrol]
    simp [hout, hargv, hnone]
  exact ⟨heq, by rw [heq]; rfl⟩

/-- A closed instance of `C9_wd_translation_failure`. -/
theorem C9_wd_translation_failure_witness :
    wsl_running_kernel_new
        ⟨"python3", "Ubuntu", ⟨["kernel", "-f", "{connection_file}"], none⟩⟩
        "C:/conn.json" "descriptor-json" (fun _ => none)
        ⟨.ok (), .ok (), .ok ⟨true, "/mnt/c/conn.json"⟩,
         .ok ⟨false, ""⟩, .ok (), .ok (), .ok (), .ok ()⟩ =
      .ok ⟨atomic_write "C:/conn.json" "descriptor-json" (fun _ => none),
           build_command "Ubuntu" none none
             ["kernel", "-f", "{connection_file}"]
             (String.trim "/mnt/c/conn.json"),
           ⟨some (), false, .running⟩⟩
    ∧ (wsl_running_kernel_new
        ⟨"python3", "Ubuntu", ⟨["kernel", "-f", "{connection_file}"], none⟩⟩
        "C:/conn.json" "descriptor-json" (fun _ => none)
        ⟨.ok (), .ok (), .ok ⟨true, "/mnt/c/conn.json"⟩,
         .ok ⟨false, ""⟩, .ok (), .ok (), .ok (), .ok ()⟩).isOk = true :=
  C9_wd_translation_failure
    ⟨"python3", "Ubuntu", ⟨["kernel", "-f", "{connection_file}"], none⟩⟩
    "C:/conn.json" "descriptor-json" (fun _ => none)
    ⟨.ok (), .ok (), .ok ⟨true, "/mnt/c/conn.json"⟩,
     .ok ⟨false, ""⟩, .ok (), .ok (), .ok (), .ok ()⟩
    ⟨true, "/mnt/c/conn.json"⟩
    rfl rfl rfl rfl (by decide) rfl rfl rfl rfl rfl

/-! ### Kernel discovery (C10) -/

/-- Embeds the distro-list parsing of `wsl_kernel_specifications`
(wsl_kernel.rs lines 463-467): the decoded `wsl -l -q` output is split into
lines, each line trimmed, and empty lines dropped.  (The UTF-16-versus-UTF-8
decoding of the raw bytes, lines 451-461, is modelled as already done:
`stdout` here is the decoded text.) -/
def parse_distros (stdout_text : String) : List String :=
  ((stdout_text.splitOn "\n").map String.trim).filter (fun line => line ≠ "")

/-- Embeds the per-distro task of `wsl_kernel_specifications` (wsl_kernel.rs
lines 469-504): run `wsl -d <distro> jupyter kernelspec list --json`; on a
command error, an unsuccessful exit, or unparsable JSON, contribute nothing;
otherwise contribute one `WslKernelSpecification` per parsed kernelspec.
`parse_specs` stands for `serde_json::from_str::<KernelSpecsResponse>`
followed by the `.spec` projection: the parsed (name, kernelspec) pairs. -/
def distro_specs (query : String → Except String CmdOutput)
    (parse_specs : String → Option (List (String × Kernelspec)))
    (distro : String) : List WslKernelSpecification :=
  match query distro with
  | .ok output =>
    if output.success then
      match parse_specs output.stdout with
      | some ks => ks.map (fun ns => ⟨ns.1, distro, ns.2⟩)
      | none => []
    else []
  | .error _ => []

/-- Embeds `wsl_kernel_specifications` (wsl_kernel.rs lines 426-513): run
`wsl -l -q`; a command error or unsuccessful exit returns `Ok(Vec::new())`;
otherwise the per-distro results are joined and returned as `Ok`. -/
def wsl_kernel_specifications (enum_output : Except String CmdOutput)
    (query : String → Except String CmdOutput)
    (parse_specs : String → Option (List (String × Kernelspec))) :
    Except String (List WslKernelSpecification) :=
  match enum_output with
  | .error _ => .ok []
  | .ok output =>
    if output.success = false then .ok []
    else
      .ok ((parse_distros output.stdout).flatMap
        (distro_specs query parse_specs))

/-- C10: discovery never surfaces an error: it returns `Ok` on every input;
an enumeration command failure or unsuccessful exit yields the empty list;
otherwise the result is the join of the per-distro results, and a distro
whose kernelspec query fails contributes nothing, so the result holds only
the specifications of the other distros. -/
theorem C10_discovery (enum_output : Except String CmdOutput)
    (query : String → Except String CmdOutput)
    (parse_specs : String → Option (List (String × Kernelspec)))
    (out bad_out : CmdOutput) (err failing : String)
    (hsucc : out.success = true)
    (hbad : bad_out.success = false)
    (hqf : (query failing).isOk = false) :
    (wsl_kernel_specifications enum_output query parse_specs).isOk = true
    ∧ wsl_kernel_specifications (.error err) query parse_specs = .ok []
    ∧ wsl_kernel_specifications (.ok bad_out) query parse_specs = .ok []
    ∧ wsl_kernel_specifications (.ok out) query parse_specs =
        .ok ((parse_distros out.stdout).flatMap (distro_specs query parse_specs))
    ∧ distro_specs query parse_specs failing = [] := by
  refine ⟨?_, rfl, ?_, ?_, ?_⟩
  · cases enum_output with
    | error e => rfl
    | ok o =>
      simp only [wsl_kernel_specifications]
      by_cases ho : o.success = false
      · rw [if_pos ho]
        rfl
      · rw [if_neg ho]
        rfl
  · simp [wsl_kernel_specifications, hbad]
  · simp [wsl_kernel_specifications, hsucc]
  · unfold distro_specs
    cases hq : query failing with
    | error e => rfl
    | ok o =>
      rw [hq] at hqf
      simp [Except.isOk, Except.toBool] at hqf

/-- A closed instance of `C10_discovery`: the enumeration lists three
distros, the query fails for the middle one, and the result contains exactly
the specifications of the other two. -/
theorem C10_discovery_witness :
    (wsl_kernel_specifications
        (.ok ⟨true, "Ubuntu\nBroken\nDebian\n"⟩)
        (fun d => if d = "Broken" then .error "query failed"
          else .ok ⟨true, d⟩)
        (fun s => some [(s ++ "-python3", ⟨["python"], none⟩)])).isOk = true
    ∧ wsl_kernel_specifications (.error "wsl not found")
        (fun d => if d = "Broken" then .error "query failed"
          else .ok ⟨true, d⟩)
        (fun s => some [(s ++ "-python3", ⟨["python"], none⟩)]) = .ok []
    ∧ wsl_kernel_specifications (.ok ⟨false, ""⟩)
        (fun d => if d = "Broken" then .error "query failed"
          else .ok ⟨true, d⟩)
        (fun s => some [(s ++ "-python3", ⟨["python"], none⟩)]) = .ok []
    ∧ wsl_kernel_specifications (.ok ⟨true, "Ubuntu\nBroken\nDebian\n"⟩)
        (fun d => if d = "Broken" then .error "query failed"
          else .ok ⟨true, d⟩)
        (fun s => some [(s ++ "-python3", ⟨["python"], none⟩)]) =
        .ok ((parse_distros "Ubuntu\nBroken\nDebian\n").flatMap
          (distro_specs
            (fun d => if d = "Broken" then .error "query failed"
              else .ok ⟨true, d⟩)
            (fun s => some [(s ++ "-python3", ⟨["python"], none⟩)])))
    ∧ distro_specs
        (fun d => if d = "Broken" then .error "query failed"
          else .ok ⟨true, d⟩)
        (fun s => some [(s ++ "-python3", ⟨["python"], none⟩)]) "Broken" = [] :=
  C10_discovery (.ok ⟨true, "Ubuntu\nBroken\nDebian\n"⟩)
    (fun d => if d = "Broken" then .error "query failed"
      else .ok ⟨true, d⟩)
    (fun s => some [(s ++ "-python3", ⟨["python"], none⟩)])
    ⟨true, "Ubuntu\nBroken\nDebian\n"⟩ ⟨false, ""⟩ "wsl not found" "Broken"
    rfl rfl rfl

end WslKernel
